import Mathlib

/-!
Shallow embedding of the HederaOps core contracts
(HederaOpsOrchestrator, AgricultureContract, HealthcareContract,
SustainabilityContract) and proofs of the specification claims.

Modelling conventions:
* `address` is `Nat` (0 plays the role of `address(0)`).
* `uint256` values are `Nat`; Solidity 0.8 checked arithmetic is modelled by
  explicit bound checks against `U256 = 2^256` that return an `Err.overflow`
  / `Err.underflow` where the EVM would revert with an arithmetic panic.
* `int256` values are `Int`; callers can only supply values in
  `[-2^255, 2^255)`, and the panic of `-x` at `x = -2^255` is modelled
  explicitly.
* `bytes32` identifiers are preimages of `keccak256`: the inductive type
  `B32` has one constructor per `abi.encodePacked`/`abi.encode` shape used in
  the source, which models keccak as an injective function whose image never
  hits `bytes32(0)` (the sentinel `B32.zero`).
* Solidity `mapping`s are total functions returning the zero value of the
  struct for absent keys, except the sustainability credit store which is a
  finite association list so that balance/credit-sum invariants are statable.
* Role checks (`onlyRole`) are Booleans passed with the call, and
  `msg.sender`, `msg.value`, `block.timestamp` are explicit parameters.
* Each operation returns `Except Err α`; an error means the transaction
  reverts and the pre-state is kept unchanged.
-/

namespace HederaOps

/-- The modulus of `uint256` arithmetic. -/
def U256 : Nat := 2 ^ 256

/-- `bytes32` values, represented by their keccak preimages (keccak is
modelled as injective and never colliding with `bytes32(0)`). Each
constructor corresponds to one hash shape used by the source contracts. -/
inductive B32 where
  | zero
  | harvestId (farmer : Nat) (cropType : String) (quantity : Nat) (timestamp : Nat)
  | saleId (farmer : Nat) (buyer : Nat) (harvest : B32) (timestamp : Nat)
  | cropPolicyId (farmer : Nat) (cropType : String) (timestamp : Nat)
  | creditId (entity : Nat) (amount : Nat) (timestamp : Nat)
  | healthPolicyId (patient : Nat) (planType : String) (timestamp : Nat)
  | visitId (patient : Nat) (facility : Nat) (timestamp : Nat)
  | txId (initiator : Nat) (timestamp : Nat) (modules : List String) (value : Nat)
deriving DecidableEq

/-- Typed failure taxonomy of the spec (§7), mapped from the `require`
messages of the source. -/
inductive Err where
  | invalidInput
  | notFound
  | alreadyExists
  | alreadyVerified
  | alreadyCompleted
  | alreadyRetired
  | unauthorized
  | preconditionFailed
  | insufficientPayment
  | insufficientPremium
  | insufficientAmount
  | notActive
  | expired
  | overflow
  | underflow
  | invalidState
  | notOwner
  | insufficientQuantity
  | invalidBuyer
  | unverified
  | pausedErr
deriving DecidableEq

/-- Solidity `require(cond, msg)`: continue when the condition holds,
revert with the mapped error otherwise. -/
def requireThat (cond : Prop) [Decidable cond] (e : Err) (k : Except Err α) :
    Except Err α :=
  if cond then k else .error e

theorem requireThat_pos {cond : Prop} [Decidable cond] {e : Err}
    {k : Except Err α} (h : cond) : requireThat cond e k = k := by
  simp [requireThat, h]

theorem requireThat_neg {cond : Prop} [Decidable cond] {e : Err}
    {k : Except Err α} (h : ¬cond) : requireThat cond e k = .error e := by
  simp [requireThat, h]

/-! ## HederaOpsOrchestrator (entity registry + cross-module transactions) -/

inductive EntityType where
  | farmer | patient | buyer | facility | product | organization | government
deriving DecidableEq

inductive TxStatus where
  | pending | processing | completed | failed | cancelled
deriving DecidableEq

/-- `struct Entity` of the orchestrator. -/
structure Entity where
  wallet : Nat
  entityType : EntityType
  activeModules : List String
  reputationScore : Nat
  verified : Bool
  created : Nat
  totalTransactions : Nat
deriving DecidableEq

/-- The all-zero storage value of `Entity` (an unregistered slot). -/
def Entity.empty : Entity := ⟨0, .farmer, [], 0, false, 0, 0⟩

/-- `struct CrossModuleTransaction` of the orchestrator. -/
structure CrossTx where
  txId : B32
  initiator : Nat
  involvedModules : List String
  status : TxStatus
  timestamp : Nat
  value : Nat
deriving DecidableEq

/-- The all-zero storage value of `CrossModuleTransaction`
(`TransactionStatus(0) = PENDING`). -/
def CrossTx.empty : CrossTx := ⟨.zero, 0, [], .pending, 0, 0⟩

/-- Storage of `HederaOpsOrchestrator` relevant to the claims. -/
structure OrchState where
  entities : Nat → Entity
  transactions : B32 → CrossTx
  isPaused : Bool

/-- Freshly deployed orchestrator storage. -/
def OrchState.init : OrchState :=
  ⟨fun _ => Entity.empty, fun _ => CrossTx.empty, false⟩

/-- A wallet counts as registered when its `wallet` field is nonzero
(the source tests `entities[w].wallet == address(0)` for absence). -/
def registered (st : OrchState) (w : Nat) : Prop := (st.entities w).wallet ≠ 0

instance (st : OrchState) (w : Nat) : Decidable (registered st w) := by
  unfold registered; infer_instance

/-- `registerEntity` (orchestrator): create an entity record for the caller. -/
def registerEntity (st : OrchState) (sender : Nat) (ty : EntityType)
    (modules : List String) (now : Nat) : Except Err OrchState :=
  requireThat (st.isPaused = false) .pausedErr <|
  requireThat ((st.entities sender).wallet = 0) .alreadyExists <|
  requireThat (modules ≠ []) .invalidInput <|
  .ok { st with entities := fun w =>
          if w = sender then ⟨sender, ty, modules, 500, false, now, 0⟩
          else st.entities w }

/-- `verifyEntity` (orchestrator): mark an entity KYC-verified. -/
def verifyEntity (st : OrchState) (hasVerifierRole : Bool) (e : Nat) :
    Except Err OrchState :=
  requireThat (hasVerifierRole = true) .unauthorized <|
  requireThat ((st.entities e).wallet ≠ 0) .notFound <|
  requireThat ((st.entities e).verified = false) .alreadyVerified <|
  .ok { st with entities := fun w =>
          if w = e then { st.entities e with verified := true }
          else st.entities w }

/-- `createCrossModuleTransaction` (orchestrator). -/
def createCrossModuleTransaction (st : OrchState) (sender : Nat)
    (modules : List String) (value : Nat) (now : Nat) :
    Except Err (B32 × OrchState) :=
  requireThat (st.isPaused = false) .pausedErr <|
  requireThat ((st.entities sender).verified = true) .unverified <|
  requireThat (modules ≠ []) .invalidInput <|
  let tid := B32.txId sender now modules value
  .ok (tid, { st with transactions := fun t =>
        if t = tid then ⟨tid, sender, modules, .pending, now, value⟩
        else st.transactions t })

/-- `completeCrossModuleTransaction` (orchestrator): only a `MODULE_ROLE`
caller, only from `PROCESSING`; bumps the initiator's counter. -/
def completeCrossModuleTransaction (st : OrchState) (hasModuleRole : Bool)
    (tid : B32) : Except Err OrchState :=
  requireThat (hasModuleRole = true) .unauthorized <|
  let txn := st.transactions tid
  requireThat (txn.status = .processing) .invalidState <|
  let ent := st.entities txn.initiator
  requireThat (ent.totalTransactions + 1 < U256) .overflow <|
  .ok { st with
        transactions := fun t =>
          if t = tid then { txn with status := .completed }
          else st.transactions t,
        entities := fun w =>
          if w = txn.initiator then
            { ent with totalTransactions := ent.totalTransactions + 1 }
          else st.entities w }

/-- `updateReputation` (orchestrator). Mirrors the source exactly: a positive
change is added then capped at 1000; a non-positive change is negated with
`uint256(-_change)` — which panics precisely at `_change = -2^255` — and
subtracted, flooring at 0. -/
def updateReputation (st : OrchState) (hasModuleRole : Bool) (e : Nat)
    (change : Int) : Except Err OrchState :=
  requireThat (hasModuleRole = true) .unauthorized <|
  let ent := st.entities e
  requireThat (ent.wallet ≠ 0) .notFound <|
  if 0 < change then
    let raw := ent.reputationScore + change.toNat
    requireThat (raw < U256) .overflow <|
    let newScore := if 1000 < raw then 1000 else raw
    .ok { st with entities := fun w =>
            if w = e then { ent with reputationScore := newScore }
            else st.entities w }
  else
    requireThat (change ≠ -((2 ^ 255 : Nat) : Int)) .overflow <|
    let decrease := (-change).toNat
    let newScore :=
      if ent.reputationScore ≤ decrease then 0
      else ent.reputationScore - decrease
    .ok { st with entities := fun w =>
            if w = e then { ent with reputationScore := newScore }
            else st.entities w }

/-- `pause` (orchestrator, `Pausable._pause` requires not paused). -/
def pause (st : OrchState) (hasAdminRole : Bool) : Except Err OrchState :=
  requireThat (hasAdminRole = true) .unauthorized <|
  requireThat (st.isPaused = false) .pausedErr <|
  .ok { st with isPaused := true }

/-- `unpause` (orchestrator, `Pausable._unpause` requires paused). -/
def unpause (st : OrchState) (hasAdminRole : Bool) : Except Err OrchState :=
  requireThat (hasAdminRole = true) .unauthorized <|
  requireThat (st.isPaused = true) .pausedErr <|
  .ok { st with isPaused := false }

/-- Orchestrator states reachable from deployment by any sequence of calls
(reverted calls leave the state unchanged, so only successes step). -/
inductive OrchReachable : OrchState → Prop where
  | init : OrchReachable OrchState.init
  | register {st st' : OrchState} {s : Nat} {ty : EntityType}
      {ms : List String} {now : Nat} (h : OrchReachable st)
      (hs : registerEntity st s ty ms now = .ok st') : OrchReachable st'
  | verify {st st' : OrchState} {hv : Bool} {e : Nat} (h : OrchReachable st)
      (hs : verifyEntity st hv e = .ok st') : OrchReachable st'
  | createTx {st st' : OrchState} {s : Nat} {ms : List String} {v now : Nat}
      {tid : B32} (h : OrchReachable st)
      (hs : createCrossModuleTransaction st s ms v now = .ok (tid, st')) :
      OrchReachable st'
  | completeTx {st st' : OrchState} {hm : Bool} {tid : B32}
      (h : OrchReachable st)
      (hs : completeCrossModuleTransaction st hm tid = .ok st') :
      OrchReachable st'
  | updateRep {st st' : OrchState} {hm : Bool} {e : Nat} {c : Int}
      (h : OrchReachable st) (hs : updateReputation st hm e c = .ok st') :
      OrchReachable st'
  | pauseStep {st st' : OrchState} {ha : Bool} (h : OrchReachable st)
      (hs : pause st ha = .ok st') : OrchReachable st'
  | unpauseStep {st st' : OrchState} {ha : Bool} (h : OrchReachable st)
      (hs : unpause st ha = .ok st') : OrchReachable st'

/-! ## AgricultureContract (harvests, escrow sales contracts, crop insurance) -/

/-- `struct Harvest` of the agriculture contract. -/
structure Harvest where
  harvestId : B32
  farmer : Nat
  cropType : String
  quantity : Nat
  qualityGrade : Nat
  timestamp : Nat
  verified : Bool
deriving DecidableEq

/-- The all-zero storage value of `Harvest`. -/
def Harvest.empty : Harvest := ⟨.zero, 0, "", 0, 0, 0, false⟩

/-- `struct SalesContract` of the agriculture contract. -/
structure SalesContract where
  contractId : B32
  farmer : Nat
  buyer : Nat
  harvestId : B32
  quantity : Nat
  pricePerUnit : Nat
  totalAmount : Nat
  escrowAmount : Nat
  deliveryConfirmed : Bool
  qualityVerified : Bool
  completed : Bool
  createdAt : Nat
deriving DecidableEq

/-- The all-zero storage value of `SalesContract`. -/
def SalesContract.empty : SalesContract :=
  ⟨.zero, 0, 0, .zero, 0, 0, 0, 0, false, false, false, 0⟩

/-- `struct CropInsurance` of the agriculture contract. -/
structure CropInsurance where
  policyId : B32
  farmer : Nat
  cropType : String
  insuredValue : Nat
  premium : Nat
  coveragePercentage : Nat
  active : Bool
  startDate : Nat
  endDate : Nat
deriving DecidableEq

/-- The all-zero storage value of `CropInsurance`. -/
def CropInsurance.empty : CropInsurance := ⟨.zero, 0, "", 0, 0, 0, false, 0, 0⟩

/-- Storage of `AgricultureContract`. -/
structure AgriState where
  harvests : B32 → Harvest
  salesContracts : B32 → SalesContract
  insurancePolicies : B32 → CropInsurance
  farmerHarvests : Nat → List B32

/-- Freshly deployed agriculture contract storage. -/
def AgriState.init : AgriState :=
  ⟨fun _ => Harvest.empty, fun _ => SalesContract.empty,
   fun _ => CropInsurance.empty, fun _ => []⟩

/-- Externally observable actions emitted by `processPayment`, in source
order: the `completed` flag is written strictly before the value transfer
to the farmer is issued. -/
inductive AgriEv where
  | markCompleted (cid : B32)
  | transfer (recipient : Nat) (amount : Nat)
deriving DecidableEq

/-- `recordHarvest` (agriculture): `harvestId` is
`keccak256(msg.sender, cropType, quantity, block.timestamp)` — note there
is no nonce or sequence counter in the preimage. -/
def recordHarvest (st : AgriState) (sender : Nat) (cropType : String)
    (quantity qualityGrade now : Nat) : Except Err (B32 × AgriState) :=
  requireThat (0 < quantity) .invalidInput <|
  requireThat (1 ≤ qualityGrade ∧ qualityGrade ≤ 5) .invalidInput <|
  let hid := B32.harvestId sender cropType quantity now
  .ok (hid, { st with
    harvests := fun h =>
      if h = hid then ⟨hid, sender, cropType, quantity, qualityGrade, now, false⟩
      else st.harvests h,
    farmerHarvests := fun f =>
      if f = sender then st.farmerHarvests sender ++ [hid]
      else st.farmerHarvests f })

/-- `createSalesContract` (agriculture). -/
def createSalesContract (st : AgriState) (sender buyer : Nat) (hid : B32)
    (quantity pricePerUnit now : Nat) : Except Err (B32 × AgriState) :=
  let harvest := st.harvests hid
  requireThat (harvest.farmer = sender) .notOwner <|
  requireThat (quantity ≤ harvest.quantity) .insufficientQuantity <|
  requireThat (buyer ≠ 0) .invalidBuyer <|
  requireThat (quantity * pricePerUnit < U256) .overflow <|
  let total := quantity * pricePerUnit
  let cid := B32.saleId sender buyer hid now
  .ok (cid, { st with salesContracts := fun c =>
        if c = cid then
          ⟨cid, sender, buyer, hid, quantity, pricePerUnit, total, 0,
           false, false, false, now⟩
        else st.salesContracts c })

/-- `depositEscrow` (agriculture): `value` is `msg.value`; the whole
deposit is stored as the new escrow amount, overwriting any earlier one. -/
def depositEscrow (st : AgriState) (sender value : Nat) (cid : B32) :
    Except Err AgriState :=
  let c := st.salesContracts cid
  requireThat (c.buyer = sender) .unauthorized <|
  requireThat (c.completed = false) .alreadyCompleted <|
  requireThat (c.totalAmount ≤ value) .insufficientPayment <|
  .ok { st with salesContracts := fun x =>
        if x = cid then { c with escrowAmount := value }
        else st.salesContracts x }

/-- `confirmDeliveryAndQuality` (agriculture, `VERIFIER_ROLE`). -/
def confirmDeliveryAndQuality (st : AgriState) (hasVerifierRole : Bool)
    (cid : B32) : Except Err AgriState :=
  requireThat (hasVerifierRole = true) .unauthorized <|
  let c := st.salesContracts cid
  requireThat (c.completed = false) .alreadyCompleted <|
  .ok { st with salesContracts := fun x =>
        if x = cid then { c with deliveryConfirmed := true, qualityVerified := true }
        else st.salesContracts x }

/-- `processPayment` (agriculture): fee = escrow × 15 / 10000, farmer gets
the rest; `completed` is set before the transfer (see the event list). -/
def processPayment (st : AgriState) (sender : Nat) (hasAdminRole : Bool)
    (cid : B32) : Except Err (Nat × List AgriEv × AgriState) :=
  let c := st.salesContracts cid
  requireThat (sender = c.buyer ∨ hasAdminRole = true) .unauthorized <|
  requireThat (c.deliveryConfirmed = true) .preconditionFailed <|
  requireThat (c.qualityVerified = true) .preconditionFailed <|
  requireThat (c.completed = false) .alreadyCompleted <|
  requireThat (0 < c.escrowAmount) .preconditionFailed <|
  requireThat (c.escrowAmount * 15 < U256) .overflow <|
  let fee := c.escrowAmount * 15 / 10000
  let payment := c.escrowAmount - fee
  .ok (payment,
       [AgriEv.markCompleted cid, AgriEv.transfer c.farmer payment],
       { st with salesContracts := fun x =>
            if x = cid then { c with completed := true }
            else st.salesContracts x })

/-- `createInsurancePolicy` (agriculture): premium = insuredValue × 4 / 100,
`value` is `msg.value`, end date = now + durationDays × 86400 s. -/
def createInsurancePolicy (st : AgriState) (sender : Nat) (cropType : String)
    (insuredValue coveragePercentage durationDays value now : Nat) :
    Except Err (B32 × AgriState) :=
  requireThat (0 < insuredValue) .invalidInput <|
  requireThat (0 < coveragePercentage ∧ coveragePercentage ≤ 100) .invalidInput <|
  requireThat (insuredValue * 4 < U256) .overflow <|
  let premium := insuredValue * 4 / 100
  requireThat (premium ≤ value) .insufficientPremium <|
  requireThat (durationDays * 86400 < U256 ∧ now + durationDays * 86400 < U256)
    .overflow <|
  let pid := B32.cropPolicyId sender cropType now
  .ok (pid, { st with insurancePolicies := fun x =>
        if x = pid then
          ⟨pid, sender, cropType, insuredValue, premium, coveragePercentage,
           true, now, now + durationDays * 86400⟩
        else st.insurancePolicies x })

/-- `processInsurancePayout` (agriculture, `VERIFIER_ROLE`): payout =
insuredValue × coveragePercentage × payoutPercentage / 10000, one-shot. -/
def processInsurancePayout (st : AgriState) (hasVerifierRole : Bool)
    (pid : B32) (payoutPercentage now : Nat) : Except Err (Nat × AgriState) :=
  requireThat (hasVerifierRole = true) .unauthorized <|
  let p := st.insurancePolicies pid
  requireThat (p.active = true) .notActive <|
  requireThat (now ≤ p.endDate) .expired <|
  requireThat (payoutPercentage ≤ 100) .invalidInput <|
  requireThat (p.insuredValue * p.coveragePercentage < U256 ∧
               p.insuredValue * p.coveragePercentage * payoutPercentage < U256)
    .overflow <|
  let payout := p.insuredValue * p.coveragePercentage * payoutPercentage / 10000
  .ok (payout, { st with insurancePolicies := fun x =>
        if x = pid then { p with active := false }
        else st.insurancePolicies x })

/-! ## HealthcareContract (health insurance policies and visit billing) -/

/-- `struct HealthInsurance` of the healthcare contract. -/
structure HealthInsurance where
  policyId : B32
  patient : Nat
  planType : String
  monthlyPremium : Nat
  coverageLimit : Nat
  autoDeduct : Bool
  paymentSource : Nat
  active : Bool
  startDate : Nat
deriving DecidableEq

/-- The all-zero storage value of `HealthInsurance` (`active = false`). -/
def HealthInsurance.empty : HealthInsurance :=
  ⟨.zero, 0, "", 0, 0, false, 0, false, 0⟩

/-- `struct HealthcareVisit` of the healthcare contract. -/
structure HealthcareVisit where
  visitId : B32
  patient : Nat
  facility : Nat
  diagnosis : String
  cost : Nat
  insuranceCovered : Nat
  patientPayment : Nat
  timestamp : Nat
deriving DecidableEq

/-- The all-zero storage value of `HealthcareVisit`. -/
def HealthcareVisit.empty : HealthcareVisit := ⟨.zero, 0, 0, "", 0, 0, 0, 0⟩

/-- Storage of `HealthcareContract`. -/
structure HealthState where
  insurancePolicies : B32 → HealthInsurance
  patientInsurance : Nat → B32
  visits : B32 → HealthcareVisit

/-- Freshly deployed healthcare contract storage (`patientInsurance`
defaults to `bytes32(0)`, and the policy stored at `bytes32(0)` is the
zero policy, which is inactive). -/
def HealthState.init : HealthState :=
  ⟨fun _ => HealthInsurance.empty, fun _ => .zero, fun _ => HealthcareVisit.empty⟩

/-- `createInsurancePolicy` of the healthcare contract (named apart from the
agriculture one): stores the policy and repoints the patient's current
policy lookup at it. -/
def createHealthPolicy (st : HealthState) (sender : Nat) (planType : String)
    (monthlyPremium coverageLimit : Nat) (autoDeduct : Bool) (now : Nat) :
    Except Err (B32 × HealthState) :=
  let pid := B32.healthPolicyId sender planType now
  .ok (pid, { st with
    insurancePolicies := fun x =>
      if x = pid then
        ⟨pid, sender, planType, monthlyPremium, coverageLimit, autoDeduct,
         0, true, now⟩
      else st.insurancePolicies x,
    patientInsurance := fun p =>
      if p = sender then pid else st.patientInsurance p })

/-- `deductPremium` (healthcare): authorizes the deduction, no fund move. -/
def deductPremium (st : HealthState) (patient amount : Nat) :
    Except Err HealthState :=
  let policy := st.insurancePolicies (st.patientInsurance patient)
  requireThat (policy.active = true) .notActive <|
  requireThat (policy.autoDeduct = true) .preconditionFailed <|
  requireThat (policy.monthlyPremium ≤ amount) .insufficientAmount <|
  .ok st

/-- `recordVisit` (healthcare, `PROVIDER_ROLE`): the coverage split (80% when
an active policy covers the cost, else nothing) is computed once at
creation and stored on the visit record. -/
def recordVisit (st : HealthState) (hasProviderRole : Bool)
    (patient facility : Nat) (diagnosis : String) (cost now : Nat) :
    Except Err (B32 × HealthState) :=
  requireThat (hasProviderRole = true) .unauthorized <|
  let vid := B32.visitId patient facility now
  let policy := st.insurancePolicies (st.patientInsurance patient)
  if policy.active = true ∧ cost ≤ policy.coverageLimit then
    requireThat (cost * 80 < U256) .overflow <|
    let covered := cost * 80 / 100
    .ok (vid, { st with visits := fun x =>
          if x = vid then
            ⟨vid, patient, facility, diagnosis, cost, covered, cost - covered, now⟩
          else st.visits x })
  else
    .ok (vid, { st with visits := fun x =>
          if x = vid then
            ⟨vid, patient, facility, diagnosis, cost, 0, cost, now⟩
          else st.visits x })

/-! ## SustainabilityContract (carbon credits, balances, retirement) -/

/-- `struct CarbonCredit` of the sustainability contract. -/
structure CarbonCredit where
  creditId : B32
  entity : Nat
  amount : Nat
  vintage : Nat
  projectType : String
  verified : Bool
  retired : Bool
  timestamp : Nat
deriving DecidableEq

/-- The all-zero storage value of `CarbonCredit`. -/
def CarbonCredit.empty : CarbonCredit := ⟨.zero, 0, 0, 0, "", false, false, 0⟩

/-- Finite view of the `carbonCredits` mapping: an association list of the
keys that have been written (reads of absent keys give the zero struct,
exactly like a Solidity mapping). Kept finite so that the sum of an
entity's credit amounts is definable. -/
def getCredit (l : List (B32 × CarbonCredit)) (cid : B32) : CarbonCredit :=
  match l.find? (fun p => decide (p.1 = cid)) with
  | some p => p.2
  | none => CarbonCredit.empty

/-- Mapping write: replace whatever is stored at the key. -/
def setCredit (l : List (B32 × CarbonCredit)) (cid : B32) (c : CarbonCredit) :
    List (B32 × CarbonCredit) :=
  (cid, c) :: l.filter (fun p => decide (p.1 ≠ cid))

/-- Storage of `SustainabilityContract`. -/
structure SustainState where
  carbonCredits : List (B32 × CarbonCredit)
  entityCarbonBalance : Nat → Nat

/-- Freshly deployed sustainability contract storage. -/
def SustainState.init : SustainState := ⟨[], fun _ => 0⟩

/-- Sum of the amounts of the stored credits owned by `e` whose `retired`
flag is false. -/
def activeSum : List (B32 × CarbonCredit) → Nat → Nat
  | [], _ => 0
  | p :: l, e =>
      (if p.2.entity = e ∧ p.2.retired = false then p.2.amount else 0) +
        activeSum l e

/-- `awardCarbonCredits` (sustainability, `VERIFIER_ROLE`): `creditId` is
`keccak256(entity, amount, block.timestamp)` — again with no sequence
counter — and the entity balance is incremented. Vintage is
`block.timestamp / 365 days + 1970`. -/
def awardCarbonCredits (st : SustainState) (hasVerifierRole : Bool)
    (entity amount : Nat) (projectType : String) (now : Nat) :
    Except Err (B32 × SustainState) :=
  requireThat (hasVerifierRole = true) .unauthorized <|
  let cid := B32.creditId entity amount now
  let credit : CarbonCredit :=
    ⟨cid, entity, amount, now / 31536000 + 1970, projectType, true, false, now⟩
  requireThat (st.entityCarbonBalance entity + amount < U256) .overflow <|
  .ok (cid,
    { carbonCredits := setCredit st.carbonCredits cid credit,
      entityCarbonBalance := fun x =>
        if x = entity then st.entityCarbonBalance entity + amount
        else st.entityCarbonBalance x })

/-- `retireCredits` (sustainability): only the credit's entity, only once;
the unsigned balance decrement reverts (checked arithmetic) if it would
underflow. -/
def retireCredits (st : SustainState) (sender : Nat) (cid : B32) :
    Except Err SustainState :=
  let credit := getCredit st.carbonCredits cid
  requireThat (credit.entity = sender) .notOwner <|
  requireThat (credit.retired = false) .alreadyRetired <|
  requireThat (credit.amount ≤ st.entityCarbonBalance sender) .underflow <|
  .ok { carbonCredits := setCredit st.carbonCredits cid { credit with retired := true },
        entityCarbonBalance := fun x =>
          if x = sender then st.entityCarbonBalance sender - credit.amount
          else st.entityCarbonBalance x }

/-- Sustainability states reachable from deployment by any sequence of
(successful) calls. -/
inductive SusReachable : SustainState → Prop where
  | init : SusReachable SustainState.init
  | award {st st' : SustainState} {hv : Bool} {e a : Nat} {pt : String}
      {now : Nat} {cid : B32} (h : SusReachable st)
      (hs : awardCarbonCredits st hv e a pt now = .ok (cid, st')) :
      SusReachable st'
  | retire {st st' : SustainState} {s : Nat} {cid : B32} (h : SusReachable st)
      (hs : retireCredits st s cid = .ok st') : SusReachable st'

/-! ## Claim theorems -/

/-- C1: for every sales contract with `deliveryConfirmed` and
`qualityVerified` set, not completed, and positive escrow, `processPayment`
invoked by the buyer (or an admin) returns exactly
`escrowAmount − escrowAmount * 15 / 10000`, emits the `completed := true`
write strictly before the transfer to the farmer, and a second
`processPayment` on the same contract fails with `AlreadyCompleted`.
(The fee product must fit in `uint256`, as Solidity 0.8 checked
arithmetic would otherwise revert.) -/
theorem processPayment_once (st : AgriState) (sender : Nat)
    (hasAdminRole : Bool) (cid : B32)
    (hauth : sender = (st.salesContracts cid).buyer ∨ hasAdminRole = true)
    (hd : (st.salesContracts cid).deliveryConfirmed = true)
    (hq : (st.salesContracts cid).qualityVerified = true)
    (hc : (st.salesContracts cid).completed = false)
    (he : 0 < (st.salesContracts cid).escrowAmount)
    (hfit : (st.salesContracts cid).escrowAmount * 15 < U256) :
    ∃ st', processPayment st sender hasAdminRole cid =
        .ok ((st.salesContracts cid).escrowAmount -
               (st.salesContracts cid).escrowAmount * 15 / 10000,
             [AgriEv.markCompleted cid,
              AgriEv.transfer (st.salesContracts cid).farmer
                ((st.salesContracts cid).escrowAmount -
                  (st.salesContracts cid).escrowAmount * 15 / 10000)],
             st')
      ∧ (st'.salesContracts cid).completed = true
      ∧ processPayment st' sender hasAdminRole cid = .error .alreadyCompleted := by
  refine ⟨{ st with salesContracts := fun x =>
      if x = cid then { st.salesContracts cid with completed := true }
      else st.salesContracts x }, ?_, by simp, ?_⟩
  · simp only [processPayment]
    rw [requireThat_pos hauth, requireThat_pos hd, requireThat_pos hq,
        requireThat_pos hc, requireThat_pos he, requireThat_pos hfit]
  · simp only [processPayment, if_pos rfl]
    rw [requireThat_pos (by simpa using hauth), requireThat_pos (by simpa using hd),
        requireThat_pos (by simpa using hq), requireThat_neg (by simp)]

/-- Concrete sales contract used to witness C1: total 10000, escrow 10000,
delivery and quality confirmed, not completed. -/
def c1Sale : SalesContract :=
  ⟨B32.saleId 1 2 (B32.harvestId 1 "coffee" 100 7) 8, 1, 2,
   B32.harvestId 1 "coffee" 100 7, 100, 100, 10000, 10000, true, true, false, 8⟩

/-- Agriculture storage holding exactly `c1Sale`. -/
def c1State : AgriState :=
  { AgriState.init with salesContracts := fun c =>
      if c = c1Sale.contractId then c1Sale else SalesContract.empty }

/-- C1 witness: on the concrete contract, the buyer's `processPayment`
succeeds and the second call fails `AlreadyCompleted`. -/
theorem processPayment_once_w :
    ∃ st', processPayment c1State 2 false c1Sale.contractId =
        .ok ((c1State.salesContracts c1Sale.contractId).escrowAmount -
               (c1State.salesContracts c1Sale.contractId).escrowAmount * 15 / 10000,
             [AgriEv.markCompleted c1Sale.contractId,
              AgriEv.transfer (c1State.salesContracts c1Sale.contractId).farmer
                ((c1State.salesContracts c1Sale.contractId).escrowAmount -
                  (c1State.salesContracts c1Sale.contractId).escrowAmount * 15 / 10000)],
             st')
      ∧ (st'.salesContracts c1Sale.contractId).completed = true
      ∧ processPayment st' 2 false c1Sale.contractId = .error .alreadyCompleted :=
  processPayment_once c1State 2 false c1Sale.contractId
    (Or.inl (by decide)) (by decide) (by decide) (by decide) (by decide)
    (by decide)

/-- Reputation scores of all wallets stay at most 1000 in every reachable
orchestrator state (registration starts at 500 and `updateReputation`
clamps). -/
theorem orch_scores_bounded {st : OrchState} (h : OrchReachable st) :
    ∀ w, (st.entities w).reputationScore ≤ 1000 := by
  induction h with
  | init => intro w; simp [OrchState.init, Entity.empty]
  | register h hs ih =>
      simp only [registerEntity, requireThat] at hs
      split at hs
      · split at hs
        · split at hs
          · rw [Except.ok.injEq] at hs
            subst hs
            intro w; dsimp only; split
            · simp
            · exact ih w
          · simp at hs
        · simp at hs
      · simp at hs
  | verify h hs ih =>
      simp only [verifyEntity, requireThat] at hs
      split at hs
      · split at hs
        · split at hs
          · rw [Except.ok.injEq] at hs
            subst hs
            intro w; dsimp only; split
            · simpa using ih _
            · exact ih w
          · simp at hs
        · simp at hs
      · simp at hs
  | createTx h hs ih =>
      simp only [createCrossModuleTransaction, requireThat] at hs
      split at hs
      · split at hs
        · split at hs
          · rw [Except.ok.injEq, Prod.mk.injEq] at hs
            rw [← hs.2]
            intro w; exact ih w
          · simp at hs
        · simp at hs
      · simp at hs
  | completeTx h hs ih =>
      simp only [completeCrossModuleTransaction, requireThat] at hs
      split at hs
      · split at hs
        · split at hs
          · rw [Except.ok.injEq] at hs
            subst hs
            intro w; dsimp only; split
            · simpa using ih _
            · exact ih w
          · simp at hs
        · simp at hs
      · simp at hs
  | updateRep h hs ih =>
      simp only [updateReputation, requireThat] at hs
      split at hs
      · split at hs
        · split at hs
          · split at hs
            · rw [Except.ok.injEq] at hs
              subst hs
              intro w; dsimp only; split
              · dsimp only; split
                · simp
                · rename_i hraw; simpa using Nat.le_of_not_lt hraw
              · exact ih w
            · simp at hs
          · split at hs
            · rw [Except.ok.injEq] at hs
              subst hs
              intro w; dsimp only; split
              · dsimp only; split
                · simp
                · exact le_trans (Nat.sub_le _ _) (ih _)
              · exact ih w
            · simp at hs
        · simp at hs
      · simp at hs
  | pauseStep h hs ih =>
      simp only [pause, requireThat] at hs
      split at hs
      · split at hs
        · rw [Except.ok.injEq] at hs
          subst hs
          exact ih
        · simp at hs
      · simp at hs
  | unpauseStep h hs ih =>
      simp only [unpause, requireThat] at hs
      split at hs
      · split at hs
        · rw [Except.ok.injEq] at hs
          subst hs
          exact ih
        · simp at hs
      · simp at hs

/-- Orchestrator storage with one registered wallet (wallet 1, score 500),
used for the C2 theorems. -/
def c2State : OrchState :=
  { OrchState.init with entities := fun w =>
      if w = 1 then ⟨1, .farmer, ["agriculture"], 500, false, 0, 0⟩
      else Entity.empty }

/-- C2 counterexample: the claim promises success for *every* signed
integer delta, but at `delta = -2^255` (the minimum `int256`) the source's
`uint256(-_change)` negation overflows `int256` and the call reverts with
an arithmetic panic instead of clamping. -/
theorem updateReputation_intMin_panic :
    registered c2State 1 ∧
    updateReputation c2State true 1 (-((2 ^ 255 : Nat) : Int)) =
      .error .overflow := by
  exact ⟨by decide, rfl⟩

/-- Power bridge used to discharge the `uint256` bound in C2. -/
theorem two_pow_256_split : (2 ^ 255 : Nat) + 2 ^ 255 = 2 ^ 256 := by
  rw [← two_mul, ← pow_succ']

/-- C2 (amended): for every registered wallet whose score is at most 1000
(true in every reachable state, second conjunct) and every `int256` delta
other than `-2^255`, `updateReputation` succeeds and sets the score to the
old score plus delta clamped to `[0, 1000]`, touching no other wallet; and
after any sequence of orchestrator calls every wallet's reputation is in
`[0, 1000]`. (At `delta = -2^255` the call reverts with an overflow panic,
see the counterexample.) -/
theorem updateReputation_clamps :
    (∀ (st : OrchState) (e : Nat) (change : Int),
      registered st e →
      (st.entities e).reputationScore ≤ 1000 →
      -((2 ^ 255 : Nat) : Int) < change → change < ((2 ^ 255 : Nat) : Int) →
      ∃ st', updateReputation st true e change = .ok st' ∧
        (st'.entities e).reputationScore =
          (max 0 (min (((st.entities e).reputationScore : Int) + change) 1000)).toNat ∧
        (st'.entities e).reputationScore ≤ 1000 ∧
        ∀ w, w ≠ e → st'.entities w = st.entities w) ∧
    (∀ st, OrchReachable st → ∀ w, (st.entities w).reputationScore ≤ 1000) := by
  constructor
  · intro st e change hreg hsc hlo hhi
    have hreg' : (st.entities e).wallet ≠ 0 := hreg
    by_cases hpos : 0 < change
    · have hraw : (st.entities e).reputationScore + change.toNat < U256 := by
        have := two_pow_256_split
        simp only [U256]
        omega
      refine ⟨{ st with entities := fun w =>
          if w = e then { st.entities e with reputationScore :=
            if 1000 < (st.entities e).reputationScore + change.toNat then 1000
            else (st.entities e).reputationScore + change.toNat }
          else st.entities w }, ?_, ?_, ?_, ?_⟩
      · simp only [updateReputation]
        rw [requireThat_pos trivial, requireThat_pos hreg', if_pos hpos,
            requireThat_pos hraw]
      · dsimp only
        rw [if_pos rfl]
        dsimp only
        split <;> omega
      · dsimp only
        rw [if_pos rfl]
        dsimp only
        split <;> omega
      · intro w hw
        dsimp only
        rw [if_neg hw]
    · have hne : change ≠ -((2 ^ 255 : Nat) : Int) := by omega
      refine ⟨{ st with entities := fun w =>
          if w = e then { st.entities e with reputationScore :=
            if (st.entities e).reputationScore ≤ (-change).toNat then 0
            else (st.entities e).reputationScore - (-change).toNat }
          else st.entities w }, ?_, ?_, ?_, ?_⟩
      · simp only [updateReputation]
        rw [requireThat_pos trivial, requireThat_pos hreg', if_neg hpos,
            requireThat_pos hne]
      · dsimp only
        rw [if_pos rfl]
        dsimp only
        split <;> omega
      · dsimp only
        rw [if_pos rfl]
        dsimp only
        split <;> omega
      · intro w hw
        dsimp only
        rw [if_neg hw]
  · exact fun _ h => orch_scores_bounded h

/-- C2 witness: on the concrete registered wallet, a decrease of 600 from
score 500 floors at 0, and the reachable-state bound holds at deployment. -/
theorem updateReputation_clamps_w :
    (∃ st', updateReputation c2State true 1 (-600) = .ok st' ∧
      (st'.entities 1).reputationScore =
        (max 0 (min (((c2State.entities 1).reputationScore : Int) + (-600)) 1000)).toNat ∧
      (st'.entities 1).reputationScore ≤ 1000 ∧
      ∀ w, w ≠ 1 → st'.entities w = c2State.entities w) ∧
    (OrchState.init.entities 3).reputationScore ≤ 1000 :=
  ⟨updateReputation_clamps.1 c2State 1 (-600) (by decide) (by decide)
      (by decide) (by decide),
   updateReputation_clamps.2 _ .init 3⟩

/-- C3 (code refutation): the id hash preimages contain no sequence
counter — only actor, semantic fields and `block.timestamp` — so two
record-creating calls with identical inputs at the same timestamp return
the SAME identifier (and the second write silently overwrites the first),
shown here for `recordHarvest` and `awardCarbonCredits`. -/
theorem id_collision_same_timestamp :
    (∃ st1 st2,
      recordHarvest AgriState.init 1 "coffee" 100 3 7 =
        .ok (B32.harvestId 1 "coffee" 100 7, st1) ∧
      recordHarvest st1 1 "coffee" 100 3 7 =
        .ok (B32.harvestId 1 "coffee" 100 7, st2)) ∧
    (∃ su1 su2,
      awardCarbonCredits SustainState.init true 1 1000 "organic" 7 =
        .ok (B32.creditId 1 1000 7, su1) ∧
      awardCarbonCredits su1 true 1 1000 "organic" 7 =
        .ok (B32.creditId 1 1000 7, su2)) :=
  ⟨⟨_, _, rfl, rfl⟩, ⟨_, _, rfl, rfl⟩⟩

/-- C4: a verifier's `processInsurancePayout` on an active, unexpired
policy with payout percentage at most 100 pays
`insuredValue × coveragePercentage × payoutPercentage / 10000` and
deactivates the policy, after which any further payout call fails
`NotActive`. (The payout products must fit in `uint256`.) -/
theorem processInsurancePayout_once (st : AgriState) (pid : B32)
    (payoutPercentage now : Nat)
    (ha : (st.insurancePolicies pid).active = true)
    (hexp : now ≤ (st.insurancePolicies pid).endDate)
    (hpct : payoutPercentage ≤ 100)
    (hfit1 : (st.insurancePolicies pid).insuredValue *
        (st.insurancePolicies pid).coveragePercentage < U256)
    (hfit2 : (st.insurancePolicies pid).insuredValue *
        (st.insurancePolicies pid).coveragePercentage * payoutPercentage < U256) :
    ∃ st', processInsurancePayout st true pid payoutPercentage now =
        .ok ((st.insurancePolicies pid).insuredValue *
              (st.insurancePolicies pid).coveragePercentage *
              payoutPercentage / 10000, st')
      ∧ (st'.insurancePolicies pid).active = false
      ∧ ∀ pct2 now2, processInsurancePayout st' true pid pct2 now2 =
          .error .notActive := by
  refine ⟨{ st with insurancePolicies := fun x =>
      if x = pid then { st.insurancePolicies pid with active := false }
      else st.insurancePolicies x }, ?_, by simp, ?_⟩
  · simp only [processInsurancePayout]
    rw [requireThat_pos trivial, requireThat_pos ha, requireThat_pos hexp,
        requireThat_pos hpct, requireThat_pos ⟨hfit1, hfit2⟩]
  · intro pct2 now2
    simp only [processInsurancePayout, if_pos rfl]
    rw [requireThat_pos trivial, requireThat_neg (by simp)]

/-- Concrete crop insurance policy for the C4 witness: insured value 10000,
coverage 80%, active, expiring at time 100. -/
def c4Policy : CropInsurance :=
  ⟨B32.cropPolicyId 1 "coffee" 10, 1, "coffee", 10000, 400, 80, true, 10, 100⟩

/-- Agriculture storage holding exactly `c4Policy`. -/
def c4State : AgriState :=
  { AgriState.init with insurancePolicies := fun x =>
      if x = c4Policy.policyId then c4Policy else CropInsurance.empty }

/-- C4 witness: payout 50% of the concrete policy pays
10000 × 80 × 50 / 10000 = 4000 and a second call fails `NotActive`. -/
theorem processInsurancePayout_once_w :
    ∃ st', processInsurancePayout c4State true c4Policy.policyId 50 50 =
        .ok ((c4State.insurancePolicies c4Policy.policyId).insuredValue *
              (c4State.insurancePolicies c4Policy.policyId).coveragePercentage *
              50 / 10000, st')
      ∧ (st'.insurancePolicies c4Policy.policyId).active = false
      ∧ ∀ pct2 now2, processInsurancePayout st' true c4Policy.policyId pct2 now2 =
          .error .notActive :=
  processInsurancePayout_once c4State c4Policy.policyId 50 50
    (by decide) (by decide) (by decide) (by decide) (by decide)

/-- C5: under the registry's entity map, `registerEntity` fails
`AlreadyExists` for a wallet whose slot is occupied, fails `InvalidInput`
for a fresh wallet with an empty module list, and otherwise creates the
entity with reputation 500 and `verified = false`. -/
theorem registerEntity_spec (st : OrchState) (sender : Nat) (ty : EntityType)
    (ms : List String) (now : Nat) (hp : st.isPaused = false) :
    ((st.entities sender).wallet ≠ 0 →
      registerEntity st sender ty ms now = .error .alreadyExists) ∧
    ((st.entities sender).wallet = 0 → ms = [] →
      registerEntity st sender ty ms now = .error .invalidInput) ∧
    ((st.entities sender).wallet = 0 → ms ≠ [] →
      ∃ st', registerEntity st sender ty ms now = .ok st' ∧
        (st'.entities sender).reputationScore = 500 ∧
        (st'.entities sender).verified = false) := by
  refine ⟨?_, ?_, ?_⟩
  · intro hr
    simp only [registerEntity]
    rw [requireThat_pos hp, requireThat_neg hr]
  · intro hz hms
    simp only [registerEntity]
    rw [requireThat_pos hp, requireThat_pos hz,
        requireThat_neg (not_not_intro hms)]
  · intro hz hms
    refine ⟨{ st with entities := fun w =>
        if w = sender then ⟨sender, ty, ms, 500, false, now, 0⟩
        else st.entities w }, ?_, by simp, by simp⟩
    simp only [registerEntity]
    rw [requireThat_pos hp, requireThat_pos hz, requireThat_pos hms]

/-- C5 witness: wallet 1 (already registered in `c2State`) fails
`AlreadyExists`; a fresh wallet 2 with no modules fails `InvalidInput`; a
fresh wallet 2 with one module registers at score 500, unverified. -/
theorem registerEntity_spec_w :
    (registerEntity c2State 1 .farmer ["agriculture"] 9 = .error .alreadyExists) ∧
    (registerEntity c2State 2 .buyer [] 9 = .error .invalidInput) ∧
    (∃ st', registerEntity c2State 2 .buyer ["agriculture"] 9 = .ok st' ∧
      (st'.entities 2).reputationScore = 500 ∧
      (st'.entities 2).verified = false) :=
  ⟨(registerEntity_spec c2State 1 .farmer ["agriculture"] 9 (by decide)).1
      (by decide),
   (registerEntity_spec c2State 2 .buyer [] 9 (by decide)).2.1
      (by decide) rfl,
   (registerEntity_spec c2State 2 .buyer ["agriculture"] 9 (by decide)).2.2
      (by decide) (by decide)⟩

/-- Reading back the key just written returns the new credit. -/
theorem getCredit_setCredit (l : List (B32 × CarbonCredit)) (cid : B32)
    (c : CarbonCredit) : getCredit (setCredit l cid c) cid = c := by
  unfold getCredit setCredit
  rw [List.find?_cons_of_pos _ (by simp)]

/-- C6: awarding `amount` credits to an entity and then retiring the
returned credit (as that entity) restores the entity's carbon balance to
its pre-award value, and retiring the same credit again fails
`AlreadyRetired`. (The incremented balance must fit in `uint256`.) -/
theorem award_retire_roundtrip (st : SustainState) (e a : Nat) (pt : String)
    (now : Nat) (hfit : st.entityCarbonBalance e + a < U256) :
    ∃ st1 st2, awardCarbonCredits st true e a pt now =
        .ok (B32.creditId e a now, st1)
      ∧ retireCredits st1 e (B32.creditId e a now) = .ok st2
      ∧ st2.entityCarbonBalance e = st.entityCarbonBalance e
      ∧ retireCredits st2 e (B32.creditId e a now) = .error .alreadyRetired := by
  refine ⟨⟨setCredit st.carbonCredits (B32.creditId e a now)
        ⟨B32.creditId e a now, e, a, now / 31536000 + 1970, pt, true, false, now⟩,
      fun x => if x = e then st.entityCarbonBalance e + a
        else st.entityCarbonBalance x⟩,
      ⟨setCredit
        (setCredit st.carbonCredits (B32.creditId e a now)
          ⟨B32.creditId e a now, e, a, now / 31536000 + 1970, pt, true, false, now⟩)
        (B32.creditId e a now)
        ⟨B32.creditId e a now, e, a, now / 31536000 + 1970, pt, true, true, now⟩,
      fun x => if x = e then st.entityCarbonBalance e + a - a
        else (if x = e then st.entityCarbonBalance e + a
          else st.entityCarbonBalance x)⟩, ?_, ?_, ?_, ?_⟩
  · simp only [awardCarbonCredits]
    rw [requireThat_pos trivial, requireThat_pos hfit]
  · simp only [retireCredits, getCredit_setCredit, if_true]
    rw [requireThat_pos trivial, requireThat_pos trivial,
        requireThat_pos (Nat.le_add_left a _)]
  · simp
  · simp only [retireCredits, getCredit_setCredit, if_true]
    rw [requireThat_pos trivial, requireThat_neg (by simp)]

/-- C6 witness: award 1000 to entity 1 at deployment, retire it, balance
returns to 0, second retire fails. -/
theorem award_retire_roundtrip_w :
    ∃ st1 st2, awardCarbonCredits SustainState.init true 1 1000 "organic" 7 =
        .ok (B32.creditId 1 1000 7, st1)
      ∧ retireCredits st1 1 (B32.creditId 1 1000 7) = .ok st2
      ∧ st2.entityCarbonBalance 1 = SustainState.init.entityCarbonBalance 1
      ∧ retireCredits st2 1 (B32.creditId 1 1000 7) = .error .alreadyRetired :=
  award_retire_roundtrip SustainState.init 1 1000 "organic" 7 (by decide)

/-- C7: `recordVisit` freezes the coverage split on the record at creation:
with an active policy covering the cost, insurance covers `cost × 80 / 100`
and the patient pays the rest; otherwise insurance covers 0 and the
patient pays the full cost. -/
theorem recordVisit_split (st : HealthState) (patient facility : Nat)
    (diagnosis : String) (cost now : Nat) (hfit : cost * 80 < U256) :
    ∃ st', recordVisit st true patient facility diagnosis cost now =
        .ok (B32.visitId patient facility now, st')
      ∧ (((st.insurancePolicies (st.patientInsurance patient)).active = true ∧
            cost ≤ (st.insurancePolicies (st.patientInsurance patient)).coverageLimit) →
          (st'.visits (B32.visitId patient facility now)).insuranceCovered =
              cost * 80 / 100 ∧
          (st'.visits (B32.visitId patient facility now)).patientPayment =
              cost - cost * 80 / 100)
      ∧ (¬((st.insurancePolicies (st.patientInsurance patient)).active = true ∧
            cost ≤ (st.insurancePolicies (st.patientInsurance patient)).coverageLimit) →
          (st'.visits (B32.visitId patient facility now)).insuranceCovered = 0 ∧
          (st'.visits (B32.visitId patient facility now)).patientPayment = cost) := by
  by_cases hcov : (st.insurancePolicies (st.patientInsurance patient)).active = true ∧
      cost ≤ (st.insurancePolicies (st.patientInsurance patient)).coverageLimit
  · refine ⟨{ st with visits := fun x =>
        if x = B32.visitId patient facility now then
          ⟨B32.visitId patient facility now, patient, facility, diagnosis,
           cost, cost * 80 / 100, cost - cost * 80 / 100, now⟩
        else st.visits x }, ?_, fun _ => by simp, fun hn => absurd hcov hn⟩
    simp only [recordVisit]
    rw [requireThat_pos trivial, if_pos hcov, requireThat_pos hfit]
  · refine ⟨{ st with visits := fun x =>
        if x = B32.visitId patient facility now then
          ⟨B32.visitId patient facility now, patient, facility, diagnosis,
           cost, 0, cost, now⟩
        else st.visits x }, ?_, fun hy => absurd hy hcov, fun _ => by simp⟩
    simp only [recordVisit]
    rw [requireThat_pos trivial, if_neg hcov]

/-- Healthcare storage for the C7 witness: patient 1 holds an active policy
with coverage limit 500000. -/
def c7State : HealthState :=
  { HealthState.init with
    insurancePolicies := fun x =>
      if x = B32.healthPolicyId 1 "Basic Plan" 4 then
        ⟨B32.healthPolicyId 1 "Basic Plan" 4, 1, "Basic Plan", 5000, 500000,
         true, 0, true, 4⟩
      else HealthInsurance.empty,
    patientInsurance := fun p =>
      if p = 1 then B32.healthPolicyId 1 "Basic Plan" 4 else .zero }

/-- C7 witness: cost 2500 with the active concrete policy splits into
2000 insurance-covered and 500 patient payment. -/
theorem recordVisit_split_w :
    (∃ st', recordVisit c7State true 1 2 "Routine checkup" 2500 9 =
        .ok (B32.visitId 1 2 9, st')
      ∧ (((c7State.insurancePolicies (c7State.patientInsurance 1)).active = true ∧
            2500 ≤ (c7State.insurancePolicies (c7State.patientInsurance 1)).coverageLimit) →
          (st'.visits (B32.visitId 1 2 9)).insuranceCovered = 2500 * 80 / 100 ∧
          (st'.visits (B32.visitId 1 2 9)).patientPayment = 2500 - 2500 * 80 / 100)
      ∧ (¬((c7State.insurancePolicies (c7State.patientInsurance 1)).active = true ∧
            2500 ≤ (c7State.insurancePolicies (c7State.patientInsurance 1)).coverageLimit) →
          (st'.visits (B32.visitId 1 2 9)).insuranceCovered = 0 ∧
          (st'.visits (B32.visitId 1 2 9)).patientPayment = 2500)) ∧
    2500 * 80 / 100 = 2000 ∧ 2500 - 2500 * 80 / 100 = 500 :=
  ⟨recordVisit_split c7State 1 2 "Routine checkup" 2500 9 (by decide),
   by decide, by decide⟩

/-- C8: `completeCrossModuleTransaction` by a module-role caller succeeds
exactly when the transaction's status is `Processing`; on success it sets
the status to `Completed` and increments the initiator's transaction
counter by one, and on any other status it fails `InvalidState` (reverting,
so the transaction is untouched). -/
theorem completeTx_spec (st : OrchState) (tid : B32)
    (hfit : (st.entities (st.transactions tid).initiator).totalTransactions + 1 < U256) :
    ((st.transactions tid).status = .processing →
      ∃ st', completeCrossModuleTransaction st true tid = .ok st' ∧
        (st'.transactions tid).status = .completed ∧
        (st'.entities (st.transactions tid).initiator).totalTransactions =
          (st.entities (st.transactions tid).initiator).totalTransactions + 1) ∧
    ((st.transactions tid).status ≠ .processing →
      completeCrossModuleTransaction st true tid = .error .invalidState) := by
  constructor
  · intro hproc
    refine ⟨{ st with
        transactions := fun t =>
          if t = tid then { st.transactions tid with status := .completed }
          else st.transactions t,
        entities := fun w =>
          if w = (st.transactions tid).initiator then
            { st.entities (st.transactions tid).initiator with
              totalTransactions :=
                (st.entities (st.transactions tid).initiator).totalTransactions + 1 }
          else st.entities w }, ?_, by simp, by simp⟩
    simp only [completeCrossModuleTransaction]
    rw [requireThat_pos trivial, requireThat_pos hproc, requireThat_pos hfit]
  · intro hnp
    simp only [completeCrossModuleTransaction]
    rw [requireThat_pos trivial, requireThat_neg hnp]

/-- Orchestrator storage for the C8 witness: one transaction in
`Processing`, initiated by the registered wallet 1. -/
def c8State : OrchState :=
  { c2State with transactions := fun t =>
      if t = B32.txId 1 6 ["agriculture"] 40 then
        ⟨B32.txId 1 6 ["agriculture"] 40, 1, ["agriculture"], .processing, 6, 40⟩
      else CrossTx.empty }

/-- C8 witness: completing the concrete `Processing` transaction succeeds,
marks it `Completed` and bumps wallet 1's counter from 0 to 1; a pending
transaction id fails `InvalidState`. -/
theorem completeTx_spec_w :
    (∃ st', completeCrossModuleTransaction c8State true
          (B32.txId 1 6 ["agriculture"] 40) = .ok st' ∧
        (st'.transactions (B32.txId 1 6 ["agriculture"] 40)).status = .completed ∧
        (st'.entities (c8State.transactions (B32.txId 1 6 ["agriculture"] 40)).initiator).totalTransactions =
          (c8State.entities (c8State.transactions (B32.txId 1 6 ["agriculture"] 40)).initiator).totalTransactions + 1) ∧
    completeCrossModuleTransaction c8State true B32.zero = .error .invalidState :=
  ⟨(completeTx_spec c8State (B32.txId 1 6 ["agriculture"] 40) (by decide)).1
      (by decide),
   (completeTx_spec c8State B32.zero (by decide)).2 (by decide)⟩

/-- C9: `depositEscrow` by the buyer fails `AlreadyCompleted` on a
completed contract, fails `InsufficientPayment` when the sent value is
below the contract total, and otherwise stores the sent value as the
escrow amount — so a second qualifying deposit simply overwrites the
first with no refund of the earlier deposit. -/
theorem depositEscrow_spec (st : AgriState) (sender value value2 : Nat)
    (cid : B32) (hb : (st.salesContracts cid).buyer = sender) :
    ((st.salesContracts cid).completed = true →
      depositEscrow st sender value cid = .error .alreadyCompleted) ∧
    ((st.salesContracts cid).completed = false →
      value < (st.salesContracts cid).totalAmount →
      depositEscrow st sender value cid = .error .insufficientPayment) ∧
    ((st.salesContracts cid).completed = false →
      (st.salesContracts cid).totalAmount ≤ value →
      ∃ st', depositEscrow st sender value cid = .ok st' ∧
        (st'.salesContracts cid).escrowAmount = value ∧
        ((st.salesContracts cid).totalAmount ≤ value2 →
          ∃ st'', depositEscrow st' sender value2 cid = .ok st'' ∧
            (st''.salesContracts cid).escrowAmount = value2)) := by
  refine ⟨?_, ?_, ?_⟩
  · intro hc
    simp only [depositEscrow]
    rw [requireThat_pos hb, requireThat_neg (by simp [hc])]
  · intro hc hv
    simp only [depositEscrow]
    rw [requireThat_pos hb, requireThat_pos hc,
        requireThat_neg (by omega)]
  · intro hc hv
    refine ⟨{ st with salesContracts := fun x =>
        if x = cid then { st.salesContracts cid with escrowAmount := value }
        else st.salesContracts x }, ?_, by simp, ?_⟩
    · simp only [depositEscrow]
      rw [requireThat_pos hb, requireThat_pos hc, requireThat_pos hv]
    · intro hv2
      refine ⟨{ st with salesContracts := fun x =>
          if x = cid then
            { ({ st with salesContracts := fun y =>
                  if y = cid then { st.salesContracts cid with escrowAmount := value }
                  else st.salesContracts y } :
                AgriState).salesContracts cid with escrowAmount := value2 }
          else ({ st with salesContracts := fun y =>
                  if y = cid then { st.salesContracts cid with escrowAmount := value }
                  else st.salesContracts y } :
                AgriState).salesContracts x }, ?_, ?_⟩
      · simp only [depositEscrow, if_true]
        rw [requireThat_pos (by simpa using hb), requireThat_pos (by simpa using hc),
            requireThat_pos (by simpa using hv2)]
      · simp

/-- C9 witness: on the C1 contract made un-deposited and incomplete, the
buyer's deposit of 10000 is stored, and a second deposit of 12000
overwrites it; a short deposit fails `InsufficientPayment`. -/
theorem depositEscrow_spec_w :
    ((c1State.salesContracts c1Sale.contractId).completed = false →
      9999 < (c1State.salesContracts c1Sale.contractId).totalAmount →
      depositEscrow c1State 2 9999 c1Sale.contractId = .error .insufficientPayment) ∧
    ((c1State.salesContracts c1Sale.contractId).completed = false →
      (c1State.salesContracts c1Sale.contractId).totalAmount ≤ 10000 →
      ∃ st', depositEscrow c1State 2 10000 c1Sale.contractId = .ok st' ∧
        (st'.salesContracts c1Sale.contractId).escrowAmount = 10000 ∧
        ((c1State.salesContracts c1Sale.contractId).totalAmount ≤ 12000 →
          ∃ st'', depositEscrow st' 2 12000 c1Sale.contractId = .ok st'' ∧
            (st''.salesContracts c1Sale.contractId).escrowAmount = 12000)) :=
  ⟨(depositEscrow_spec c1State 2 9999 12000 c1Sale.contractId (by decide)).2.1,
   (depositEscrow_spec c1State 2 10000 12000 c1Sale.contractId (by decide)).2.2⟩

/-- Dropping the entries at one key can only lower an entity's active-credit
sum. -/
theorem activeSum_filter_le (l : List (B32 × CarbonCredit)) (cid : B32)
    (e : Nat) :
    activeSum (l.filter (fun p => decide (p.1 ≠ cid))) e ≤ activeSum l e := by
  induction l with
  | nil => simp [activeSum]
  | cons p l ih =>
      rw [List.filter_cons]
      by_cases h : p.1 = cid
      · rw [if_neg (by simp [h])]
        simp only [activeSum]
        omega
      · rw [if_pos (by simp [h])]
        simp only [activeSum]
        omega

/-- If the first entry stored at `cid` is an active credit of `e`, then its
amount plus the sum over the other keys is at most the total sum. -/
theorem activeSum_found (l : List (B32 × CarbonCredit)) (cid : B32) (e : Nat)
    (c : CarbonCredit)
    (hf : l.find? (fun p => decide (p.1 = cid)) = some (cid, c))
    (he : c.entity = e) (hr : c.retired = false) :
    c.amount + activeSum (l.filter (fun p => decide (p.1 ≠ cid))) e ≤
      activeSum l e := by
  induction l with
  | nil => simp at hf
  | cons p l ih =>
      by_cases h : p.1 = cid
      · rw [List.find?_cons_of_pos _ (by simpa using h)] at hf
        rw [Option.some.injEq] at hf
        subst hf
        rw [List.filter_cons, if_neg (by simp)]
        simp only [activeSum]
        rw [if_pos ⟨he, hr⟩]
        have h1 := activeSum_filter_le l cid e
        omega
      · rw [List.find?_cons_of_neg _ (by simpa using h)] at hf
        have hx := ih hf
        rw [List.filter_cons, if_pos (by simp [h])]
        simp only [activeSum]
        omega

/-- Any single active credit of `e` stored in the list is bounded by the
active-credit sum. -/
theorem mem_active_le_activeSum (l : List (B32 × CarbonCredit))
    (p : B32 × CarbonCredit) (e : Nat) (hp : p ∈ l) (he : p.2.entity = e)
    (hr : p.2.retired = false) : p.2.amount ≤ activeSum l e := by
  induction l with
  | nil => simp at hp
  | cons q l ih =>
      rcases List.mem_cons.1 hp with h | h
      · subst h
        simp only [activeSum]
        rw [if_pos ⟨he, hr⟩]
        omega
      · have := ih h
        simp only [activeSum]
        omega

/-- In every reachable sustainability state, each entity's balance is at
least the sum of its non-retired stored credit amounts. -/
theorem sus_balance_ge {st : SustainState} (h : SusReachable st) :
    ∀ e, activeSum st.carbonCredits e ≤ st.entityCarbonBalance e := by
  induction h with
  | init => intro e; simp [SustainState.init, activeSum]
  | award h hs ih =>
      rename_i st0 st1 hv e a pt now cid
      simp only [awardCarbonCredits, requireThat] at hs
      split at hs
      · split at hs
        · rw [Except.ok.injEq, Prod.mk.injEq] at hs
          rw [← hs.2]
          intro e2
          unfold setCredit
          simp only [activeSum]
          have h1 := activeSum_filter_le st0.carbonCredits (B32.creditId e a now) e2
          have h2 := ih e2
          by_cases hee : e2 = e
          · rw [hee] at h1 h2 ⊢
            rw [if_pos rfl]
            split <;> omega
          · rw [if_neg hee]
            split <;> omega
        · simp at hs
      · simp at hs
  | retire h hs ih =>
      rename_i st0 st1 s cid
      simp only [retireCredits, requireThat] at hs
      split at hs
      · split at hs
        · split at hs
          · rename_i howner hret hbal
            rw [Except.ok.injEq] at hs
            rw [← hs]
            intro e2
            unfold setCredit
            simp only [activeSum]
            rw [if_neg (by simp)]
            have h1 := activeSum_filter_le st0.carbonCredits cid e2
            have h2 := ih e2
            by_cases hes : e2 = s
            · rw [hes] at h1 h2 ⊢
              rw [if_pos rfl]
              rcases hfind : List.find? (fun p => decide (p.1 = cid))
                  st0.carbonCredits with _ | p
              · have hcred : getCredit st0.carbonCredits cid = CarbonCredit.empty := by
                  unfold getCredit; rw [hfind]
                rw [hcred] at hbal
                simp only [CarbonCredit.empty] at hbal
                rw [hcred]
                simp only [CarbonCredit.empty]
                omega
              · have hpkey : p.1 = cid := by
                  have := List.find?_some hfind
                  simpa using this
                have hcred : getCredit st0.carbonCredits cid = p.2 := by
                  unfold getCredit; rw [hfind]
                rw [hcred] at hbal howner hret
                have hp2 : (cid, p.2) = p := by
                  rw [← hpkey]
                have hfound := activeSum_found st0.carbonCredits cid s p.2
                  (by rw [hp2]; exact hfind) howner hret
                rw [hcred]
                omega
            · rw [if_neg hes]
              omega
          · simp at hs
        · simp at hs
      · simp at hs

/-- C10 counterexample: two awards with identical (entity, amount,
timestamp) collide on the credit id; the second overwrites the single
stored credit while crediting the balance again, so the balance (200)
exceeds the sum of non-retired stored credits (100). -/
theorem carbon_balance_eq_fails :
    ∃ st1 st2,
      awardCarbonCredits SustainState.init true 1 100 "organic" 5 =
        .ok (B32.creditId 1 100 5, st1) ∧
      awardCarbonCredits st1 true 1 100 "organic" 5 =
        .ok (B32.creditId 1 100 5, st2) ∧
      st2.entityCarbonBalance 1 = 200 ∧
      activeSum st2.carbonCredits 1 = 100 :=
  ⟨_, _, rfl, rfl, rfl, rfl⟩

/-- C10 (amended): in every reachable sustainability state, each entity's
`entityCarbonBalance` is at least — not in general equal to, see the
counterexample — the sum of the amounts of its stored credits whose
retired flag is false, and consequently the unsigned balance decrement in
`retireCredits` can never underflow. -/
theorem carbon_balance_invariant :
    ∀ st, SusReachable st →
      (∀ e, activeSum st.carbonCredits e ≤ st.entityCarbonBalance e) ∧
      (∀ s cid, retireCredits st s cid ≠ .error .underflow) := by
  intro st h
  refine ⟨sus_balance_ge h, ?_⟩
  intro s cid
  unfold retireCredits
  rcases hfind : List.find? (fun p => decide (p.1 = cid))
      st.carbonCredits with _ | p
  · have hcred : getCredit st.carbonCredits cid = CarbonCredit.empty := by
      unfold getCredit; rw [hfind]
    rw [hcred]
    by_cases hown : (CarbonCredit.empty).entity = s
    · rw [requireThat_pos hown,
          requireThat_pos (show CarbonCredit.empty.retired = false from rfl),
          requireThat_pos (show CarbonCredit.empty.amount ≤
            st.entityCarbonBalance s from Nat.zero_le _)]
      simp
    · rw [requireThat_neg hown]
      simp
  · have hcred : getCredit st.carbonCredits cid = p.2 := by
      unfold getCredit; rw [hfind]
    rw [hcred]
    by_cases hown : p.2.entity = s
    · by_cases hret : p.2.retired = false
      · have hpmem := List.mem_of_find?_eq_some hfind
        have hle := mem_active_le_activeSum st.carbonCredits p s hpmem hown hret
        have hbal := sus_balance_ge h s
        rw [requireThat_pos hown, requireThat_pos hret,
            requireThat_pos (by omega)]
        simp
      · rw [requireThat_pos hown, requireThat_neg hret]
        simp
    · rw [requireThat_neg hown]
      simp

/-- C10 witness: at deployment the bound holds for entity 0 and no retire
call can report an arithmetic underflow. -/
theorem carbon_balance_invariant_w :
    activeSum SustainState.init.carbonCredits 0 ≤
        SustainState.init.entityCarbonBalance 0 ∧
      retireCredits SustainState.init 0 B32.zero ≠ .error .underflow :=
  ⟨(carbon_balance_invariant SustainState.init .init).1 0,
   (carbon_balance_invariant SustainState.init .init).2 0 B32.zero⟩

end HederaOps
